import Mathlib

/-!
Verification of the LabSentinel Audit Reconciliation Engine (`src/app.py`).

The engine data is Python dictionaries produced by `json.loads`; we embed
JSON values as the inductive type `Json` and dictionaries as association
lists (`Dict`), and translate the engine functions from `app.py`:

* `jsonLoads` / `jsonDumps` model the Python functions `json.loads` / `json.dumps` on
  the JSON subset the engine exchanges (objects, arrays, strings with the
  basic escapes, integers, booleans, null).  `float` literals and `\u`
  escapes are outside the subset; no claim depends on them.
* Python `str.upper` / `str.lower` / `str.strip` / `\s` are modelled on
  ASCII, which covers every string the engine compares.
* Python float arithmetic in the scorer is modelled by exact rational
  arithmetic on integer numerator/denominator pairs; every value the
  scorer manipulates (quarters divided by a small count, times 100) is
  exactly representable, and `pyRoundQ` reproduces the Python function `round`
  (round-half-to-even).
* A Python statement that raises an uncaught exception (e.g. `min(None, 15)`
  raising `TypeError`) is modelled by `Option.none`.
-/

set_option maxRecDepth 100000

namespace LabSentinel

/-! ### Python-style character and string helpers -/

/-- Python `\s` / `str.strip` whitespace (ASCII part): space, tab, newline,
carriage return, vertical tab, form feed. -/
def pyIsSpace (c : Char) : Bool :=
  c == ' ' || c == '\t' || c == '\n' || c == '\r' ||
  c == Char.ofNat 11 || c == Char.ofNat 12

/-- ASCII lower-casing of one character, as Python `str.lower` does on ASCII. -/
def asciiLower (c : Char) : Char :=
  if 'A' ≤ c && c ≤ 'Z' then Char.ofNat (c.toNat + 32) else c

/-- ASCII upper-casing of one character, as Python `str.upper` does on ASCII. -/
def asciiUpper (c : Char) : Char :=
  if 'a' ≤ c && c ≤ 'z' then Char.ofNat (c.toNat - 32) else c

/-- Python `str.lower` (ASCII). -/
def strLower (s : String) : String := String.mk (s.data.map asciiLower)

/-- Python `str.upper` (ASCII). -/
def strUpper (s : String) : String := String.mk (s.data.map asciiUpper)

/-- Whether the first list is a prefix of the second. -/
def listPre : List Char → List Char → Bool
  | [], _ => true
  | _ :: _, [] => false
  | a :: as, b :: bs => a == b && listPre as bs

/-- Index of the first occurrence of `needle` in `hay` (leftmost match, as
Python `re`/`str.find` locate substrings). -/
def findSub (hay needle : List Char) : Option Nat :=
  (List.range (hay.length + 1)).find? (fun i => listPre needle (hay.drop i))

/-- Python `needle in hay` for strings: substring containment. -/
def strContains (hay needle : String) : Bool :=
  (findSub hay.data needle.data).isSome

/-- Drop trailing characters satisfying `p`. -/
def trimRightBy (p : Char → Bool) (l : List Char) : List Char :=
  (l.reverse.dropWhile p).reverse

/-- Python `str.strip()`: remove leading and trailing whitespace. -/
def pyStrip (s : String) : String :=
  String.mk (trimRightBy pyIsSpace (s.data.dropWhile pyIsSpace))

/-- Python `s.split(sep)` for a one-character separator. -/
def pySplitChar (sep : Char) (s : String) : List String :=
  (s.data.splitOn sep).map String.mk

/-- Python `s.split(":")[-1]`: the segment after the last separator
(the whole string when the separator is absent). -/
def lastSegment (sep : Char) (s : String) : String :=
  String.mk (s.data.reverse.takeWhile (fun c => c != sep)).reverse

/-- First maximal run of decimal digits in `s`, as a number: models
`int(re.search(r"\d+", s).group())`, `none` when `re.search` finds no digit. -/
def firstDigitRun (s : String) : Option Nat :=
  let run := (s.data.dropWhile (fun c => !c.isDigit)).takeWhile Char.isDigit
  if run.isEmpty then none
  else some (run.foldl (fun acc c => 10 * acc + (c.toNat - 48)) 0)

/-! ### JSON values and Python dictionaries -/

/-- A JSON value, as produced by `json.loads`.  Numbers are integers: the
engine only ever exchanges integral scores and counts. -/
inductive Json where
  | null : Json
  | bool (b : Bool) : Json
  | num (n : Int) : Json
  | str (s : String) : Json
  | arr (xs : List Json) : Json
  | obj (kvs : List (String × Json)) : Json
deriving Repr

mutual

def Json.beq : Json → Json → Bool
  | .null, .null => true
  | .bool a, .bool b => a == b
  | .num a, .num b => a == b
  | .str a, .str b => a == b
  | .arr a, .arr b => Json.beqList a b
  | .obj a, .obj b => Json.beqObj a b
  | _, _ => false

def Json.beqList : List Json → List Json → Bool
  | [], [] => true
  | a :: as, b :: bs => Json.beq a b && Json.beqList as bs
  | _, _ => false

def Json.beqObj : List (String × Json) → List (String × Json) → Bool
  | [], [] => true
  | (ka, va) :: as, (kb, vb) :: bs => ka == kb && Json.beq va vb && Json.beqObj as bs
  | _, _ => false

end

instance : BEq Json := ⟨Json.beq⟩

mutual

def Json.beqIff : ∀ (a b : Json), (Json.beq a b = true) ↔ a = b
  | .null, b => by cases b <;> simp [Json.beq]
  | .bool a, b => by cases b <;> simp [Json.beq]
  | .num a, b => by cases b <;> simp [Json.beq]
  | .str a, b => by cases b <;> simp [Json.beq]
  | .arr as, .arr bs => by simp [Json.beq, Json.beqListIff as bs]
  | .arr as, .null => by simp [Json.beq]
  | .arr as, .bool _ => by simp [Json.beq]
  | .arr as, .num _ => by simp [Json.beq]
  | .arr as, .str _ => by simp [Json.beq]
  | .arr as, .obj _ => by simp [Json.beq]
  | .obj as, .obj bs => by simp [Json.beq, Json.beqObjIff as bs]
  | .obj as, .null => by simp [Json.beq]
  | .obj as, .bool _ => by simp [Json.beq]
  | .obj as, .num _ => by simp [Json.beq]
  | .obj as, .str _ => by simp [Json.beq]
  | .obj as, .arr _ => by simp [Json.beq]

def Json.beqListIff : ∀ (as bs : List Json), (Json.beqList as bs = true) ↔ as = bs
  | [], [] => by simp [Json.beqList]
  | [], _ :: _ => by simp [Json.beqList]
  | _ :: _, [] => by simp [Json.beqList]
  | a :: as, b :: bs => by simp [Json.beqList, Json.beqIff a b, Json.beqListIff as bs]

def Json.beqObjIff : ∀ (as bs : List (String × Json)), (Json.beqObj as bs = true) ↔ as = bs
  | [], [] => by simp [Json.beqObj]
  | [], _ :: _ => by simp [Json.beqObj]
  | _ :: _, [] => by simp [Json.beqObj]
  | (ka, va) :: as, (kb, vb) :: bs => by
      simp [Json.beqObj, Json.beqIff va vb, Json.beqObjIff as bs, Prod.ext_iff, and_assoc]

end

instance : DecidableEq Json := fun a b => decidable_of_iff _ (Json.beqIff a b)

/-- A Python dictionary with string keys, in insertion order. -/
abbrev Dict := List (String × Json)

/-- Value stored under `k`, if any. -/
def dictLookup (d : Dict) (k : String) : Option Json :=
  match d with
  | [] => none
  | (k', v) :: rest => if k' == k then some v else dictLookup rest k

/-- Python `d.get(k, dflt)`. -/
def pyGetD (d : Dict) (k : String) (dflt : Json) : Json :=
  (dictLookup d k).getD dflt

/-- Python `d[k] = v`: replace the value in place when the key exists
(keeping its position, as CPython dicts do), else append. -/
def dictSet (d : Dict) (k : String) (v : Json) : Dict :=
  match d with
  | [] => [(k, v)]
  | (k', v') :: rest => if k' == k then (k', v) :: rest else (k', v') :: dictSet rest k v

/-- String field read `d.get(k, dflt)` where the engine then treats the value
as a string (`.upper()`, `.lower()`, `in`).  A present non-string value would
make Python raise; that corner is unreachable from the claims and is
modelled by the default. -/
def jStrD (d : Dict) (k : String) (dflt : String) : String :=
  match pyGetD d k (Json.str dflt) with
  | .str s => s
  | _ => dflt

/-- The engine iterates `result.get("findings"/"sop_compliance_checklist", [])`
as a list of dicts.  A non-array value or non-object element would make
Python raise at the first attribute access; unreachable from the claims,
modelled as an empty list / empty dict. -/
def asDictList (j : Json) : List Dict :=
  match j with
  | .arr xs => xs.map (fun x => match x with | .obj kvs => kvs | _ => [])
  | _ => []

def pySquote : String := (Char.ofNat 39).toString

mutual

/-- Python `repr` of a JSON-shaped value (as seen in `str(list)`/`str(dict)`). -/
def reprJson : Json → String
  | .null => "None"
  | .bool true => "True"
  | .bool false => "False"
  | .num n => toString n
  | .str s => pySquote ++ s ++ pySquote
  | .arr xs => "[" ++ String.intercalate (", ") (reprJsonList xs) ++ "]"
  | .obj kvs => "\x7b" ++ String.intercalate (", ") (reprJsonObj kvs) ++ "\x7d"

def reprJsonList : List Json → List String
  | [] => []
  | x :: xs => reprJson x :: reprJsonList xs

def reprJsonObj : List (String × Json) → List String
  | [] => []
  | (k, v) :: kvs => (pySquote ++ k ++ pySquote ++ ": " ++ reprJson v) :: reprJsonObj kvs

end

/-- Python `str(...)` of a JSON-shaped value. -/
def pyStr (j : Json) : String :=
  match j with
  | .str s => s
  | _ => reprJson j

/-! ### `json.dumps` (used by the error branch of `compare_with_sop`) -/

/-- Escape one character for a JSON string literal, as `json.dumps` does for
the ASCII characters the engine emits. -/
def jsonEscapeChar (c : Char) : String :=
  if c == '"' then ("\\\"")
  else if c == '\\' then ("\\\\")
  else if c == '\n' then ("\\n")
  else if c == '\t' then ("\\t")
  else if c == '\r' then ("\\r")
  else String.singleton c

def jsonEscape (s : String) : String :=
  String.join (s.data.map jsonEscapeChar)

mutual

/-- Python `json.dumps` with default separators. -/
def jsonDumps : Json → String
  | .null => "null"
  | .bool true => "true"
  | .bool false => "false"
  | .num n => toString n
  | .str s => "\"" ++ jsonEscape s ++ "\""
  | .arr xs => "[" ++ String.intercalate (", ") (jsonDumpsList xs) ++ "]"
  | .obj kvs => "\x7b" ++ String.intercalate (", ") (jsonDumpsObj kvs) ++ "\x7d"

def jsonDumpsList : List Json → List String
  | [] => []
  | x :: xs => jsonDumps x :: jsonDumpsList xs

def jsonDumpsObj : List (String × Json) → List String
  | [] => []
  | (k, v) :: kvs => ("\"" ++ jsonEscape k ++ "\": " ++ jsonDumps v) :: jsonDumpsObj kvs

end

/-! ### `json.loads` -/

/-- JSON string-body scanner: consumes up to the closing quote, decoding the
basic escapes. -/
def scanStringBody : List Char → Option (List Char × List Char)
  | [] => none
  | c :: rest =>
    if c == '"' then some ([], rest)
    else if c == '\\' then
      match rest with
      | [] => none
      | e :: rest2 =>
        let dec : Option Char :=
          if e == '"' then some '"'
          else if e == '\\' then some '\\'
          else if e == '/' then some '/'
          else if e == 'n' then some '\n'
          else if e == 't' then some '\t'
          else if e == 'r' then some '\r'
          else if e == 'b' then some (Char.ofNat 8)
          else if e == 'f' then some (Char.ofNat 12)
          else none
        match dec with
        | none => none
        | some d =>
          match scanStringBody rest2 with
          | none => none
          | some (s, r) => some (d :: s, r)
    else
      match scanStringBody rest with
      | none => none
      | some (s, r) => some (c :: s, r)

def skipWs (cs : List Char) : List Char :=
  cs.dropWhile (fun c => c == ' ' || c == '\t' || c == '\n' || c == '\r')

def scanInt (cs : List Char) : Option (Int × List Char) :=
  match cs with
  | '-' :: rest =>
    let digits := rest.takeWhile Char.isDigit
    if digits.isEmpty then none
    else some (-(Int.ofNat (digits.foldl (fun acc c => 10 * acc + (c.toNat - 48)) 0)),
               rest.drop digits.length)
  | _ =>
    let digits := cs.takeWhile Char.isDigit
    if digits.isEmpty then none
    else some (Int.ofNat (digits.foldl (fun acc c => 10 * acc + (c.toNat - 48)) 0),
               cs.drop digits.length)

mutual

/-- Fuel-indexed JSON value parser (the fuel only bounds recursion depth;
`jsonLoads` supplies more than any input can consume). -/
def parseVal : Nat → List Char → Option (Json × List Char)
  | 0, _ => none
  | fuel + 1, cs =>
    let cs := skipWs cs
    match cs with
    | [] => none
    | c :: rest =>
      if c == '"' then
        match scanStringBody rest with
        | none => none
        | some (s, r) => some (Json.str (String.mk s), r)
      else if c == Char.ofNat 123 then
        parseObjBody fuel rest
      else if c == '[' then
        parseArrBody fuel rest
      else if listPre ("true".data) cs then some (Json.bool true, cs.drop 4)
      else if listPre ("false".data) cs then some (Json.bool false, cs.drop 5)
      else if listPre ("null".data) cs then some (Json.null, cs.drop 4)
      else
        match scanInt cs with
        | none => none
        | some (n, r) => some (Json.num n, r)

/-- Parse the members of an object after `{`. -/
def parseObjBody : Nat → List Char → Option (Json × List Char)
  | 0, _ => none
  | fuel + 1, cs =>
    let cs := skipWs cs
    match cs with
    | c :: rest =>
      if c == Char.ofNat 125 then some (Json.obj [], rest)
      else
        match parseMembers fuel (c :: rest) with
        | none => none
        | some (kvs, r) => some (Json.obj kvs, r)
    | [] => none

/-- One or more `"key": value` members followed by `}`. -/
def parseMembers : Nat → List Char → Option (List (String × Json) × List Char)
  | 0, _ => none
  | fuel + 1, cs =>
    let cs := skipWs cs
    match cs with
    | '"' :: rest =>
      match scanStringBody rest with
      | none => none
      | some (k, r) =>
        match skipWs r with
        | ':' :: r2 =>
          match parseVal fuel r2 with
          | none => none
          | some (v, r3) =>
            match skipWs r3 with
            | ',' :: r4 =>
              match parseMembers fuel r4 with
              | none => none
              | some (kvs, r5) => some ((String.mk k, v) :: kvs, r5)
            | c :: r4 =>
              if c == Char.ofNat 125 then some ([(String.mk k, v)], r4) else none
            | [] => none
        | _ => none
    | _ => none

/-- Parse the items of an array after `[`. -/
def parseArrBody : Nat → List Char → Option (Json × List Char)
  | 0, _ => none
  | fuel + 1, cs =>
    let cs := skipWs cs
    match cs with
    | ']' :: rest => some (Json.arr [], rest)
    | _ =>
      match parseItems fuel cs with
      | none => none
      | some (xs, r) => some (Json.arr xs, r)

/-- One or more array items followed by `]`. -/
def parseItems : Nat → List Char → Option (List Json × List Char)
  | 0, _ => none
  | fuel + 1, cs =>
    match parseVal fuel cs with
    | none => none
    | some (v, r) =>
      match skipWs r with
      | ',' :: r2 =>
        match parseItems fuel r2 with
        | none => none
        | some (xs, r3) => some (v :: xs, r3)
      | ']' :: r2 => some ([v], r2)
      | _ => none

end

/-- Python `json.loads`: parse a whole document, requiring only whitespace
after the value. -/
def jsonLoads (s : String) : Option Json :=
  match parseVal (2 * s.length + 16) s.data with
  | none => none
  | some (v, rest) => if (skipWs rest).isEmpty then some v else none

/-! ### Response Normalizer: the three extraction strategies
(`parse_audit_response`, app.py lines 484-511) -/

def fenceMarker : String := "```"

/-- `re.search` with pattern `r"<backtick fence>(?:json)?\s*([\s\S]*?)\s*<backtick fence>"`, returning group 1.
`re.search` matches at the first fence marker; the optional `json` tag is consumed
when present, the greedy leading `\s*` eats whitespace, and the lazy group
ends at the next fence marker with the trailing whitespace run stripped (absorbed by
the second `\s*`).  No match exists when no closing fence follows. -/
def fenceSearch (text : String) : Option String :=
  match findSub text.data fenceMarker.data with
  | none => none
  | some i =>
    let rest := text.data.drop (i + 3)
    let rest := if listPre ("json".data) rest then rest.drop 4 else rest
    let rest := rest.dropWhile pyIsSpace
    match findSub rest fenceMarker.data with
    | none => none
    | some k => some (String.mk (trimRightBy pyIsSpace (rest.take k)))

/-- `re.search` with the greedy brace pattern, returning group 0: from the first
opening brace to the last closing brace (greedy), when the latter comes
after the former. -/
def braceSearch (text : String) : Option String :=
  match text.data.findIdx? (fun c => c == Char.ofNat 123),
        (text.data.reverse.findIdx? (fun c => c == Char.ofNat 125)) with
  | some i, some jr =>
    let j := text.data.length - 1 - jr
    if i < j then some (String.mk ((text.data.drop i).take (j - i + 1))) else none
  | _, _ => none

/-- The try/except ladder of `parse_audit_response` (lines 486-499): direct
parse; on failure a fenced block, whose own parse failure is swallowed by the
shared `except` so that the greedy-brace strategy runs only when *no* fenced
block was found. -/
def extractJson (text : String) : Option Json :=
  match jsonLoads text with
  | some v => some v
  | none =>
    match fenceSearch text with
    | some inner => jsonLoads inner
    | none =>
      match braceSearch text with
      | some span => jsonLoads span
      | none => none

/-- The `PARSE_ERROR` record returned when `result is None` (lines 501-511). -/
def parseErrorRecord (text : String) : Dict :=
  [("data_integrity_score", Json.null),
   ("overall_status", Json.str ("PARSE_ERROR")),
   ("summary", Json.str ("The AI generated a response but it could not be parsed as structured data. Raw response is shown below.")),
   ("raw_response", Json.str text),
   ("findings", Json.arr []),
   ("sop_compliance_checklist", Json.arr []),
   ("risk_assessment", Json.str text),
   ("recommended_actions", Json.arr [Json.str ("Review raw AI output manually")])]

/-! ### Finding Filter (lines 520-557) -/

/-- The fixed phrase list `not_real_finding_phrases` (lines 527-539). -/
def notRealFindingPhrases : List String :=
  ["cannot be verified", "cannot be assessed", "cannot be determined",
   "cannot be confirmed", "cannot be evaluated", "cannot be measured",
   "cannot confirm", "cannot assess", "cannot determine", "cannot evaluate",
   "not visible", "not provided", "not shown", "not available",
   "not displayed", "not indicated", "not present in the image",
   "does not show", "does not display", "does not indicate",
   "does not provide", "lacks visible", "lacks context",
   "image does not", "image lacks", "from the image alone",
   "from a static image", "from the static image",
   "from the captured image", "from the current image",
   "printed on paper", "scanned", "photographed"]

/-- `" ".join([str(f.get("observation","")), str(f.get("discrepancy","")),
str(f.get("impact",""))]).lower()` (lines 544-548). -/
def findingText (f : Dict) : String :=
  strLower (pyStr (pyGetD f ("observation") (Json.str (""))) ++ " " ++
            pyStr (pyGetD f ("discrepancy") (Json.str (""))) ++ " " ++
            pyStr (pyGetD f ("impact") (Json.str (""))))

/-- `any(phrase in finding_text for phrase in not_real_finding_phrases)`. -/
def isPhantomFinding (f : Dict) : Bool :=
  notRealFindingPhrases.any (fun phrase => strContains (findingText f) phrase)

/-- `f.get("severity", "").upper()`. -/
def severityOf (f : Dict) : String :=
  strUpper (jStrD f ("severity") (""))

/-- A finding survives the loop of lines 541-557 when its severity is
CRITICAL or MAJOR, or else when it is not phantom. -/
def keepFinding (f : Dict) : Bool :=
  severityOf f == "CRITICAL" || severityOf f == "MAJOR" || !isPhantomFinding f

/-- The Finding Filter: keeps exactly the findings `keepFinding` accepts,
in order. -/
def findingsFilter (fs : List Dict) : List Dict :=
  fs.filter keepFinding

/-! ### Deterministic Scorer (lines 563-598) -/

/-- `severity_penalties.get(f.get("severity","").upper(), 0)` with the table
`{"CRITICAL": 15, "MAJOR": 10, "MINOR": 5, "OBSERVATION": 2}` (lines 578-579). -/
def severityPenalty (sev : String) : Int :=
  if sev == "CRITICAL" then 15
  else if sev == "MAJOR" then 10
  else if sev == "MINOR" then 5
  else if sev == "OBSERVATION" then 2
  else 0

/-- `penalty = sum(severity_penalties.get(..., 0) for f in findings)`. -/
def findingsPenalty (fs : List Dict) : Int :=
  (fs.map (fun f => severityPenalty (severityOf f))).sum

/-- `sum(1 for item in checklist if item.get("status","").upper() == s)`. -/
def countStatus (checklist : List Dict) (s : String) : Nat :=
  (checklist.filter (fun item => strUpper (jStrD item ("status") ("")) == s)).length

/-- Python `round` on an exact rational `num / den` (`den > 0`):
round-half-to-even, which is what Python 3 `round` does (all values the
scorer rounds are exactly representable floats, so the rational model is
exact). -/
def pyRoundQ (num den : Int) : Int :=
  let f := Int.fdiv num den
  let r2 := 2 * (num - f * den)
  if r2 < den then f
  else if r2 > den then f + 1
  else if f % 2 = 0 then f else f + 1

/-- `max(0, min(100, round(raw_score - penalty)))` (line 581) where
`raw_score = ((compliant * 1.0) + (unable * 0.25)) / total * 100`
(line 573): the value rounded is the exact rational
`((4*compliant + unable) * 25 - penalty * total) / total`. -/
def clampedScore (compliant unable total : Nat) (penalty : Int) : Int :=
  max 0 (min 100 (pyRoundQ ((4 * (compliant : Int) + (unable : Int)) * 25 - penalty * total) total))

/-- The checklist tally `total = compliant + non_compliant + unable` of
lines 564-567. -/
def tallyTotal (checklist : List Dict) : Nat :=
  countStatus checklist ("COMPLIANT") + countStatus checklist ("NON-COMPLIANT") +
    countStatus checklist ("UNABLE TO ASSESS")

/-- Lines 563-585: the checklist tally and score computation.  `proposed`
stands for `result.get("data_integrity_score", 50)`, read only on the
fallback paths (`if checklist:` false, or `total > 0` false). -/
def computeChecklistScore (checklist findings : List Dict) (proposed : Json) : Json :=
  if checklist.isEmpty then proposed
  else if tallyTotal checklist > 0 then
    Json.num (clampedScore (countStatus checklist ("COMPLIANT"))
      (countStatus checklist ("UNABLE TO ASSESS")) (tallyTotal checklist)
      (findingsPenalty findings))
  else proposed

/-- Lines 590-596: the status thresholds applied to the calculated score. -/
def statusFromScore (n : Int) : String :=
  if n ≥ 80 then ("PASS") else if n ≥ 50 then ("INVESTIGATE") else ("FAIL")

/-- Lines 513-598 after a successful parse: filter the findings, write them
back, compute the deterministic score, overwrite `data_integrity_score`, and
derive `overall_status` from it.  The comparison `calculated_score >= 80`
raises `TypeError` when the fallback produced a non-integer (e.g. a JSON
`null` proposed score): that uncaught exception is `none`. -/
def processParsed (result : Dict) : Option Dict :=
  let checklist := asDictList (pyGetD result ("sop_compliance_checklist") (Json.arr []))
  let findings := asDictList (pyGetD result ("findings") (Json.arr []))
  let filtered := findingsFilter findings
  let result := dictSet result ("findings") (Json.arr (filtered.map Json.obj))
  let calculated := computeChecklistScore checklist filtered
      (pyGetD result ("data_integrity_score") (Json.num 50))
  let result := dictSet result ("data_integrity_score") calculated
  match calculated with
  | Json.num n => some (dictSet result ("overall_status") (Json.str (statusFromScore n)))
  | _ => none

/-- `parse_audit_response` (lines 484-598).  A parsed non-object document
would make `result.get` raise `AttributeError`, modelled as `none`. -/
def parse_audit_response (response_text : String) : Option Dict :=
  match extractJson response_text with
  | none => some (parseErrorRecord response_text)
  | some (Json.obj kvs) => processParsed kvs
  | some _ => none

/-- The synthetic record `compare_with_sop` builds when the reasoning
inference call raises (lines 468-477), before `json.dumps`. -/
def errorRecordFields (errMsg : String) : Dict :=
  [("data_integrity_score", Json.num 0),
   ("overall_status", Json.str ("ERROR")),
   ("summary", Json.str ("Audit could not be completed: " ++ errMsg)),
   ("findings", Json.arr []),
   ("sop_compliance_checklist", Json.arr []),
   ("risk_assessment", Json.str ("Unable to assess due to API error.")),
   ("recommended_actions", Json.arr [Json.str ("Check API key"), Json.str ("Verify model availability"), Json.str ("Try again")])]

/-- The string `compare_with_sop` returns on a transport failure:
`json.dumps` of the synthetic ERROR record. -/
def compareWithSopFailure (errMsg : String) : String :=
  jsonDumps (Json.obj (errorRecordFields errMsg))

/-! ### Image quality gate (app.py lines 1011-1034) -/

/-- Lines 1013-1020: scan the first five lines of the vision output for an
`IMAGE_QUALITY:` marker (case-insensitive); on the first such line, take the
first digit run after the last colon (`none` both when no marker line exists
and when the marker line carries no digits — the loop breaks either way). -/
def extractImageQuality (analysis : String) : Option Nat :=
  match ((pySplitChar '\n' analysis).take 5).find?
      (fun line => strContains (strUpper line) ("IMAGE_QUALITY:")) with
  | none => none
  | some line => firstDigitRun (lastSegment ':' line)

/-! ### Experiment-Type Mismatch Detector (lines 1036-1098) -/

/-- `sop_to_experiment` (lines 1041-1055), in insertion order. -/
def sopToExperiment : List (String × String) :=
  [("mtt", "MTT_CELL_VIABILITY"),
   ("cell viability", "MTT_CELL_VIABILITY"),
   ("sop-cv", "MTT_CELL_VIABILITY"),
   ("gel", "GEL_ELECTROPHORESIS"),
   ("electrophoresis", "GEL_ELECTROPHORESIS"),
   ("sop-ge", "GEL_ELECTROPHORESIS"),
   ("hplc", "HPLC_CHROMATOGRAPHY"),
   ("chromatograph", "HPLC_CHROMATOGRAPHY"),
   ("sop-hp", "HPLC_CHROMATOGRAPHY"),
   ("colony", "COLONY_COUNTING"),
   ("cfu", "COLONY_COUNTING"),
   ("bacterial", "COLONY_COUNTING"),
   ("sop-bc", "COLONY_COUNTING")]

/-- `type_keywords` (lines 1058-1063), in insertion order. -/
def typeKeywords : List (String × List String) :=
  [("MTT_CELL_VIABILITY",
    ["mtt", "96-well", "microplate", "well plate", "formazan", "purple well", "cell viability"]),
   ("GEL_ELECTROPHORESIS",
    ["gel electrophoresis", "agarose", "gel band", "dna gel", "gel lane", "electrophoresis",
     "uv light", "uv illuminat", "fluorescent band", "ethidium bromide", "translucent block",
     "transparent block", "dna ladder", "gel slab"]),
   ("HPLC_CHROMATOGRAPHY",
    ["hplc", "chromatogram", "chromatography", "retention time", "peak area"]),
   ("COLONY_COUNTING",
    ["colony count", "cfu", "petri dish", "bacterial colony", "agar plate"])]

/-- Signal 1 (lines 1066-1070): the explicit `EXPERIMENT_TYPE:` tag in the
first three lines, `.split(":")[-1].strip().upper()`, defaulting to OTHER. -/
def detectedType (analysis : String) : String :=
  match ((pySplitChar '\n' analysis).take 3).find?
      (fun line => strContains (strUpper line) ("EXPERIMENT_TYPE:")) with
  | none => "OTHER"
  | some line => strUpper (pyStrip (lastSegment ':' line))

/-- Signal 2 (lines 1072-1078): first keyword-table entry matching the
lowered description text, defaulting to OTHER. -/
def descriptionType (analysis : String) : String :=
  match typeKeywords.find?
      (fun tk => tk.2.any (fun kw => strContains (strLower analysis) kw)) with
  | none => "OTHER"
  | some tk => tk.1

/-- Lines 1084-1086: explicit classification wins unless it is OTHER. -/
def bestDetectedType (analysis : String) : String :=
  if detectedType analysis == "OTHER" then descriptionType analysis
  else detectedType analysis

/-- Lines 1088-1094: keyword-match the first line of the stripped SOP (lowered)
against `sop_to_experiment`, first hit wins. -/
def expectedType (sopText : String) : Option String :=
  match (pySplitChar '\n' (pyStrip sopText)).head? with
  | none => none
  | some firstLine =>
    (sopToExperiment.find?
      (fun ke => strContains (strLower firstLine) ke.1)).map (fun ke => ke.2)

/-- Line 1097: `expected_type and best_detected_type != "OTHER" and
expected_type not in best_detected_type` (`in` is substring containment). -/
def isMismatch (analysis sopText : String) : Bool :=
  match expectedType sopText with
  | none => false
  | some e => bestDetectedType analysis != "OTHER" && !(strContains (bestDetectedType analysis) e)

/-! ### Mismatch score override (lines 1119-1144) -/

/-- The synthetic CRITICAL finding inserted at position 0 (lines 1134-1143). -/
def mismatchFinding (best expected : String) : Dict :=
  [("id", Json.str ("F000")),
   ("severity", Json.str ("CRITICAL")),
   ("category", Json.str ("Experiment Type Mismatch")),
   ("observation", Json.str ("Vision model detected: " ++ best)),
   ("sop_requirement", Json.str ("SOP expects: " ++ expected)),
   ("discrepancy", Json.str ("The uploaded image does not match the selected SOP protocol. This is a fundamental pairing error, not a compliance failure.")),
   ("impact", Json.str ("Audit results are not meaningful when image and SOP are from different experiment types.")),
   ("recommendation", Json.str ("Select the correct SOP for this image, or upload the correct image for this SOP."))]

/-- `"mismatch" in f.get("category","").lower() or ("mismatch") in
f.get("discrepancy","").lower()` (line 1132). -/
def describesMismatch (f : Dict) : Bool :=
  strContains (strLower (jStrD f ("category") (""))) ("mismatch") ||
  strContains (strLower (jStrD f ("discrepancy") (""))) ("mismatch")

/-- Lines 1127-1144, run when `is_mismatch`:
`min(audit_result.get("data_integrity_score", 0), 15)` — which raises
`TypeError` (`none`) when the stored score is not an integer, e.g. the
`None` of a PARSE_ERROR record — then status forced to FAIL, then the
synthetic finding prepended unless one already describes a mismatch. -/
def applyMismatchOverride (best expected : String) (result : Dict) : Option Dict :=
  match pyGetD result ("data_integrity_score") (Json.num 0) with
  | Json.num n =>
    let r1 := dictSet result ("data_integrity_score") (Json.num (min n 15))
    let r2 := dictSet r1 ("overall_status") (Json.str ("FAIL"))
    let existing := asDictList (pyGetD r2 ("findings") (Json.arr []))
    if existing.any describesMismatch then some r2
    else some (dictSet r2 ("findings")
        (Json.arr (Json.obj (mismatchFinding best expected) :: existing.map Json.obj)))
  | _ => none

/-! ### Orchestrator (lines 1011-1144): quality gate, mismatch detection,
reasoning call, normalization, override.  The vision call and the
content-addressed cache sit outside this slice: the reasoning inference call
is the oracle `reasoningCall`, exactly as `compare_with_sop` always returns
a string. -/

inductive PipelineOutcome where
  | lowQualityHalt (q : Nat) : PipelineOutcome
  | record (result : Dict) : PipelineOutcome
deriving DecidableEq

/-- Lines 1036-1144 after the quality gate: detect mismatch, issue the
reasoning call, normalize, and apply the override when mismatched. -/
def proceedAudit (analysis sopText : String) (reasoningCall : String → String → String) :
    Option PipelineOutcome :=
  let mism := isMismatch analysis sopText
  match parse_audit_response (reasoningCall analysis sopText) with
  | none => none
  | some result =>
    if mism then
      (applyMismatchOverride (bestDetectedType analysis)
        ((expectedType sopText).getD ("None")) result).map PipelineOutcome.record
    else some (PipelineOutcome.record result)

/-- Lines 1011-1144: the quality gate halts the run (`st.stop()`) with the
low-quality verdict when a declared quality `≤ 3` is extracted; otherwise the
audit proceeds.  `none` models an uncaught exception. -/
def runAuditPipeline (analysis sopText : String)
    (reasoningCall : String → String → String) : Option PipelineOutcome :=
  match extractImageQuality analysis with
  | some q =>
    if q ≤ 3 then some (PipelineOutcome.lowQualityHalt q)
    else proceedAudit analysis sopText reasoningCall
  | none => proceedAudit analysis sopText reasoningCall

/-! ### Views used in the theorem statements -/

def finalScoreOf (o : Option Dict) : Json :=
  match o with
  | some d => pyGetD d ("data_integrity_score") Json.null
  | none => Json.null

def finalStatusOf (o : Option Dict) : Json :=
  match o with
  | some d => pyGetD d ("overall_status") Json.null
  | none => Json.null

def findingsOf (d : Dict) : List Dict :=
  asDictList (pyGetD d ("findings") (Json.arr []))

/-- Number of findings that describe a mismatch (the predicate of line 1132). -/
def mismatchCount (fs : List Dict) : Nat :=
  (fs.filter describesMismatch).length

/-! ### Concrete inputs used in the claim theorems -/

def c1Response : String :=
  "\x7b\"sop_compliance_checklist\": [], \"data_integrity_score\": 77\x7d"
def c4Response : String :=
  "\x7b\"data_integrity_score\": 95, \"sop_compliance_checklist\": [\x7b\"status\": \"COMPLIANT\"\x7d, \x7b\"status\": \"COMPLIANT\"\x7d, \x7b\"status\": \"UNABLE TO ASSESS\"\x7d, \x7b\"status\": \"UNABLE TO ASSESS\"\x7d], \"findings\": []\x7d"
def c3Response : String := "x\n```json\nnope\n```\n\x7b\"a\": 1\x7d"
def c3FencedProse : String :=
  "Sure! Here is the audit: ```json \x7b\"findings\": []\x7d ``` Hope that helps!"
def fPhantomMinor : Dict :=
  [("severity", Json.str ("MINOR")),
   ("observation", Json.str ("Incubation temperature cannot be verified from the image"))]
def fPhantomCritical : Dict :=
  [("severity", Json.str ("CRITICAL")),
   ("observation", Json.str ("Contamination cannot be verified from the image"))]
def fUnknownSeverity : Dict := [("severity", Json.str ("WARNING"))]
def itemCompliant : Dict := [("status", Json.str ("COMPLIANT"))]
def resultPass90 : Dict :=
  [("data_integrity_score", Json.num 90), ("overall_status", Json.str ("PASS")),
   ("findings", Json.arr [])]
def visLowQuality : String := "EXPERIMENT_TYPE: OTHER\nIMAGE_QUALITY: 2\nA blurry image."
def visNoQualityMarker : String := "A clear image of a plate.\nNo markers present."
def sopMttText : String :=
  "SOP-CV-001: MTT Cell Viability Assay\nEXPECTED OBSERVATIONS:\n1. Purple wells."
def rcConstHello : String → String → String := fun _ _ => "hello"
def visHplcChart : String :=
  "EXPERIMENT_TYPE: HPLC_CHROMATOGRAPHY\nIMAGE_QUALITY: 8\nA chart with peaks."

/-! ## Helper lemmas -/

theorem dictLookup_dictSet_self (d : Dict) (k : String) (v : Json) :
    dictLookup (dictSet d k v) k = some v := by
  induction d with
  | nil => simp [dictSet, dictLookup]
  | cons hd tl ih =>
    obtain ⟨k1, v1⟩ := hd
    by_cases h : k1 = k
    · simp [dictSet, dictLookup, h]
    · simp [dictSet, dictLookup, h, ih]

theorem dictLookup_dictSet_ne (d : Dict) (k k2 : String) (v : Json) (h : k ≠ k2) :
    dictLookup (dictSet d k v) k2 = dictLookup d k2 := by
  induction d with
  | nil => simp [dictSet, dictLookup, h]
  | cons hd tl ih =>
    obtain ⟨k1, v1⟩ := hd
    by_cases h1 : k1 = k
    · subst h1
      simp [dictSet, dictLookup, h]
    · simp [dictSet, dictLookup, h1, ih]

theorem dictSet_self_of_lookup (d : Dict) (k : String) (v : Json)
    (h : dictLookup d k = some v) : dictSet d k v = d := by
  induction d with
  | nil => simp [dictLookup] at h
  | cons hd tl ih =>
    obtain ⟨k1, v1⟩ := hd
    by_cases h1 : k1 = k
    · subst h1
      simp [dictLookup] at h
      simp [dictSet, h]
    · simp [dictLookup, h1] at h
      simp [dictSet, h1, ih h]

theorem pyGetD_dictSet_self (d : Dict) (k : String) (v : Json) (dflt : Json) :
    pyGetD (dictSet d k v) k dflt = v := by
  simp [pyGetD, dictLookup_dictSet_self]

theorem pyGetD_dictSet_ne (d : Dict) (k k2 : String) (v : Json) (dflt : Json) (h : k ≠ k2) :
    pyGetD (dictSet d k v) k2 dflt = pyGetD d k2 dflt := by
  simp [pyGetD, dictLookup_dictSet_ne _ _ _ _ h]

theorem asDictList_arr_map_obj (xs : List Dict) :
    asDictList (Json.arr (xs.map Json.obj)) = xs := by
  induction xs with
  | nil => simp [asDictList]
  | cons x xs ih =>
    simp only [asDictList, List.map_map] at ih ⊢
    simpa using ih

theorem mismatchCount_eq_zero_iff (fs : List Dict) :
    mismatchCount fs = 0 ↔ fs.any describesMismatch = false := by
  simp [mismatchCount, List.length_eq_zero, List.filter_eq_nil_iff, List.any_eq_false]

/-- The synthetic mismatch finding always satisfies the line-1132 predicate:
its category literal contains the word mismatch. -/
theorem describesMismatch_mismatchFinding (best expected : String) :
    describesMismatch (mismatchFinding best expected) = true := rfl

theorem statusFromScore_mem (n : Int) :
    statusFromScore n = "PASS" ∨ statusFromScore n = "INVESTIGATE" ∨
      statusFromScore n = "FAIL" := by
  unfold statusFromScore
  split_ifs <;> simp

/-- Every record a successful parse produces carries an engine-computed
status (one of the three threshold values). -/
theorem processParsed_status (kvs d : Dict) (h : processParsed kvs = some d) :
    ∃ n : Int, dictLookup d ("overall_status") = some (Json.str (statusFromScore n)) := by
  simp only [processParsed] at h
  split at h
  · next n heq =>
    refine ⟨n, ?_⟩
    rw [← Option.some_inj.mp h]
    exact dictLookup_dictSet_self _ _ _
  · exact absurd h (by simp)

theorem computeChecklistScore_congr_penalty (checklist : List Dict) (fs fs2 : List Dict)
    (proposed : Json) (h : findingsPenalty fs = findingsPenalty fs2) :
    computeChecklistScore checklist fs proposed = computeChecklistScore checklist fs2 proposed := by
  unfold computeChecklistScore
  rw [h]

theorem findingsPenalty_append (fs fs2 : List Dict) :
    findingsPenalty (fs ++ fs2) = findingsPenalty fs + findingsPenalty fs2 := by
  simp [findingsPenalty]

/-! ## The claims -/

/-- C1 (amended): when the checklist tally total is zero — including an
empty checklist — the scorer does not assign a fixed neutral 50; it
evaluates `result.get("data_integrity_score", 50)` (lines 583 and 585), so
the inference response proposed score is passed through verbatim whenever
the key is present, and 50 is only the missing-key default. -/
theorem C1_total_zero_falls_back_to_proposed (checklist findings : List Dict)
    (proposed : Json) (h : tallyTotal checklist = 0) :
    computeChecklistScore checklist findings proposed = proposed := by
  simp [computeChecklistScore, h]

theorem C1_witness :
    tallyTotal [] = 0 ∧ computeChecklistScore [] [] (Json.num 77) = Json.num 77 :=
  ⟨by decide, C1_total_zero_falls_back_to_proposed [] [] (Json.num 77) (by decide)⟩

theorem C1_counterexample :
    finalScoreOf (parse_audit_response c1Response) = Json.num 77 ∧
    Json.num 77 ≠ Json.num 50 ∧
    finalStatusOf (parse_audit_response c1Response) = Json.str ("INVESTIGATE") := by
  decide

/-- C2 (amended): when the reasoning inference call raises, the synthetic
record built by `compare_with_sop` (status ERROR, score 0) does not survive
to the canonical output: `parse_audit_response` keeps score 0 (empty
checklist, proposed score 0) but recomputes `overall_status` from that
score, overwriting ERROR with FAIL. -/
theorem C2_error_record_status_overwritten (errMsg : String) :
    finalStatusOf (processParsed (errorRecordFields errMsg)) = Json.str ("FAIL") ∧
    finalScoreOf (processParsed (errorRecordFields errMsg)) = Json.num 0 :=
  ⟨rfl, rfl⟩

theorem C2_counterexample :
    finalStatusOf (parse_audit_response (compareWithSopFailure ("Connection error."))) =
      Json.str ("FAIL") ∧
    Json.str ("FAIL") ≠ Json.str ("ERROR") ∧
    finalScoreOf (parse_audit_response (compareWithSopFailure ("Connection error."))) =
      Json.num 0 := by
  decide

/-- C4 (amended): for 2 COMPLIANT, 0 NON_COMPLIANT, 2 UNABLE and no
findings, raw = 62.5 but Python `round` is round-half-to-even, so
`round(62.5 - 0) = 62`, giving score 62 (not 63) with status INVESTIGATE. -/
theorem C4_two_compliant_two_unable_scores_62 :
    clampedScore 2 2 4 0 = 62 ∧
    finalScoreOf (parse_audit_response c4Response) = Json.num 62 ∧
    finalStatusOf (parse_audit_response c4Response) = Json.str ("INVESTIGATE") := by
  decide

theorem C4_counterexample :
    finalScoreOf (parse_audit_response c4Response) ≠ Json.num 63 := by
  decide

/-- C9: the Finding Filter is idempotent — filtering an already-filtered
findings list returns it unchanged. -/
theorem C9_filter_idempotent (fs : List Dict) :
    findingsFilter (findingsFilter fs) = findingsFilter fs := by
  simp [findingsFilter, List.filter_filter]

/-- C3 (amended): the normalizer prefers a direct parse; on its failure it
parses the contents of a fenced block when one exists — and when that
fenced parse also fails, the failure is swallowed by the shared `except`,
so the greedy brace strategy is tried only when *no* fenced block was
found; the PARSE_ERROR record (carrying the raw text verbatim in
`raw_response`) is produced exactly when this composition yields nothing. -/
theorem C3_extraction_order (text : String) :
    (∀ v, jsonLoads text = some v → extractJson text = some v) ∧
    (jsonLoads text = none → ∀ inner, fenceSearch text = some inner →
       extractJson text = jsonLoads inner) ∧
    (jsonLoads text = none → fenceSearch text = none →
       extractJson text = (braceSearch text).bind jsonLoads) ∧
    ((∃ d, parse_audit_response text = some d ∧
        pyGetD d ("overall_status") Json.null = Json.str ("PARSE_ERROR") ∧
        pyGetD d ("raw_response") Json.null = Json.str text) ↔
      extractJson text = none) := by
  refine ⟨?_, ?_, ?_, ?_, ?_⟩
  · intro v hv
    simp [extractJson, hv]
  · intro h inner hf
    simp [extractJson, h, hf]
  · intro h hf
    cases hb : braceSearch text <;> simp [extractJson, h, hf, hb]
  · rintro ⟨d, hd, hst, _⟩
    cases hj : extractJson text with
    | none => rfl
    | some j =>
      cases j <;> simp only [parse_audit_response, hj] at hd <;>
        try exact absurd hd (by simp)
      next kvs =>
        obtain ⟨n, hn⟩ := processParsed_status kvs d hd
        have hval : pyGetD d ("overall_status") Json.null =
            Json.str (statusFromScore n) := by
          simp [pyGetD, hn]
        rw [hval] at hst
        have : statusFromScore n = "PARSE_ERROR" := by
          injection hst
        rcases statusFromScore_mem n with he | he | he <;> rw [he] at this <;>
          exact absurd this (by decide)
  · intro h
    exact ⟨parseErrorRecord text, by simp [parse_audit_response, h], rfl, rfl⟩

theorem C3_counterexample :
    fenceSearch c3Response = some ("nope") ∧
    jsonLoads ("nope") = none ∧
    braceSearch c3Response = some ("\x7b\"a\": 1\x7d") ∧
    jsonLoads ("\x7b\"a\": 1\x7d") = some (Json.obj [("a", Json.num 1)]) ∧
    extractJson c3Response = none ∧
    finalStatusOf (parse_audit_response c3Response) = Json.str ("PARSE_ERROR") := by
  decide

theorem C3_witness :
    extractJson c3FencedProse = jsonLoads ("\x7b\"findings\": []\x7d") ∧
    jsonLoads ("\x7b\"findings\": []\x7d") = some (Json.obj [("findings", Json.arr [])]) :=
  ⟨(C3_extraction_order c3FencedProse).2.1 (by decide) _ (by decide), by decide⟩

/-- C7: under the data-model severity enumeration, a finding is dropped by
the filter iff its severity is MINOR or OBSERVATION and its combined
observation/discrepancy/impact text contains a non-substantive phrase;
CRITICAL and MAJOR findings are kept whatever their phrasing, and
membership in the filtered list is exactly membership plus being kept. -/
theorem C7_filter_drop_iff :
    (∀ f : Dict,
       severityOf f = "CRITICAL" ∨ severityOf f = "MAJOR" ∨
       severityOf f = "MINOR" ∨ severityOf f = "OBSERVATION" →
       (keepFinding f = false ↔
         ((severityOf f = "MINOR" ∨ severityOf f = "OBSERVATION") ∧
          isPhantomFinding f = true))) ∧
    (∀ f : Dict, severityOf f = "CRITICAL" ∨ severityOf f = "MAJOR" →
       keepFinding f = true) ∧
    (∀ (fs : List Dict) (f : Dict),
       f ∈ findingsFilter fs ↔ f ∈ fs ∧ keepFinding f = true) := by
  refine ⟨?_, ?_, ?_⟩
  · intro f h
    rcases h with h | h | h | h <;> cases hp : isPhantomFinding f <;>
      simp only [keepFinding, h, hp] <;> decide
  · intro f h
    rcases h with h | h <;> cases hp : isPhantomFinding f <;>
      simp only [keepFinding, h, hp] <;> decide
  · intro fs f
    simp [findingsFilter, List.mem_filter]

theorem C7_witness :
    (keepFinding fPhantomMinor = false ↔
      ((severityOf fPhantomMinor = "MINOR" ∨ severityOf fPhantomMinor = "OBSERVATION") ∧
       isPhantomFinding fPhantomMinor = true)) ∧
    keepFinding fPhantomCritical = true :=
  ⟨C7_filter_drop_iff.1 fPhantomMinor (by decide),
   C7_filter_drop_iff.2.1 fPhantomCritical (by decide)⟩

/-- C10: a finding whose upper-cased severity is none of CRITICAL, MAJOR,
MINOR, OBSERVATION (missing, empty or misspelled) falls in the `.get(...)`
default of the penalty table and contributes exactly 0, so inserting such a
finding anywhere never changes the computed score — with or without the
Finding Filter applied first. -/
theorem C10_unknown_severity_is_neutral (checklist fs1 fs2 : List Dict) (f : Dict)
    (proposed : Json)
    (h : severityOf f ≠ "CRITICAL" ∧ severityOf f ≠ "MAJOR" ∧
         severityOf f ≠ "MINOR" ∧ severityOf f ≠ "OBSERVATION") :
    severityPenalty (severityOf f) = 0 ∧
    findingsPenalty (fs1 ++ f :: fs2) = findingsPenalty (fs1 ++ fs2) ∧
    computeChecklistScore checklist (fs1 ++ f :: fs2) proposed =
      computeChecklistScore checklist (fs1 ++ fs2) proposed ∧
    computeChecklistScore checklist (findingsFilter (fs1 ++ f :: fs2)) proposed =
      computeChecklistScore checklist (findingsFilter (fs1 ++ fs2)) proposed := by
  obtain ⟨h1, h2, h3, h4⟩ := h
  have hp : severityPenalty (severityOf f) = 0 := by
    simp [severityPenalty, h1, h2, h3, h4]
  have hpen : findingsPenalty (fs1 ++ f :: fs2) = findingsPenalty (fs1 ++ fs2) := by
    simp [findingsPenalty, hp]
  have hfpen : findingsPenalty (findingsFilter (fs1 ++ f :: fs2)) =
      findingsPenalty (findingsFilter (fs1 ++ fs2)) := by
    simp only [findingsFilter, List.filter_append, List.filter_cons]
    cases hk : keepFinding f <;> simp [findingsPenalty, hp]
  exact ⟨hp, hpen, computeChecklistScore_congr_penalty _ _ _ _ hpen,
    computeChecklistScore_congr_penalty _ _ _ _ hfpen⟩

theorem C10_witness :
    computeChecklistScore [itemCompliant] [fUnknownSeverity] (Json.num 50) =
      computeChecklistScore [itemCompliant] [] (Json.num 50) :=
  (C10_unknown_severity_is_neutral [itemCompliant] [] [] fUnknownSeverity
    (Json.num 50) (by decide)).2.2.1

/-- C6: when `is_mismatch` holds and the record carries an integer score
`n`, the override clamps the score to `min n 15` (hence at most 15), forces
status FAIL, prepends the synthetic CRITICAL mismatch finding exactly when
no existing finding describes a mismatch (leaving the findings untouched
otherwise, so a clean record ends with exactly one mismatch entry), and is
idempotent (no duplicate on repeated application); and in the pipeline the
override consumes the output of `parse_audit_response`, i.e. it runs after
the deterministic scorer. -/
theorem C6_mismatch_override (best expected : String) (result : Dict) (n : Int)
    (h : pyGetD result ("data_integrity_score") (Json.num 0) = Json.num n) :
    (∃ out, applyMismatchOverride best expected result = some out ∧
      pyGetD out ("data_integrity_score") Json.null = Json.num (min n 15) ∧
      min n 15 ≤ 15 ∧
      pyGetD out ("overall_status") Json.null = Json.str ("FAIL") ∧
      (mismatchCount (findingsOf result) = 0 → mismatchCount (findingsOf out) = 1) ∧
      (mismatchCount (findingsOf result) ≠ 0 → findingsOf out = findingsOf result) ∧
      applyMismatchOverride best expected out = some out) ∧
    (∀ (analysis sop : String) (rc : String → String → String) (res : Dict),
       isMismatch analysis sop = true →
       parse_audit_response (rc analysis sop) = some res →
       proceedAudit analysis sop rc =
         (applyMismatchOverride (bestDetectedType analysis)
           ((expectedType sop).getD ("None")) res).map PipelineOutcome.record) := by
  constructor
  · have hk1 : ("overall_status" : String) ≠ "data_integrity_score" := by decide
    have hk2 : ("data_integrity_score" : String) ≠ "findings" := by decide
    have hk3 : ("overall_status" : String) ≠ "findings" := by decide
    have hk4 : ("findings" : String) ≠ "data_integrity_score" := by decide
    have hk5 : ("findings" : String) ≠ "overall_status" := by decide
    set r1 : Dict := dictSet result ("data_integrity_score") (Json.num (min n 15)) with hr1
    set r2 : Dict := dictSet r1 ("overall_status") (Json.str ("FAIL")) with hr2
    have hsc2 : dictLookup r2 ("data_integrity_score") = some (Json.num (min n 15)) := by
      rw [hr2, dictLookup_dictSet_ne _ _ _ _ hk1, hr1, dictLookup_dictSet_self]
    have hst2 : dictLookup r2 ("overall_status") = some (Json.str ("FAIL")) := by
      rw [hr2, dictLookup_dictSet_self]
    have hfind2 : findingsOf r2 = findingsOf result := by
      unfold findingsOf
      rw [hr2, pyGetD_dictSet_ne _ _ _ _ _ hk3, hr1, pyGetD_dictSet_ne _ _ _ _ _ hk2]
    have hover : applyMismatchOverride best expected result =
        (if (findingsOf r2).any describesMismatch then some r2
         else some (dictSet r2 ("findings")
           (Json.arr (Json.obj (mismatchFinding best expected) ::
             (findingsOf r2).map Json.obj)))) := by
      simp only [applyMismatchOverride, h, findingsOf, hr2, hr1]
    by_cases hany : (findingsOf r2).any describesMismatch = true
    · -- an existing finding already describes a mismatch: no prepend
      refine ⟨r2, ?_, ?_, min_le_right n 15, ?_, ?_, ?_, ?_⟩
      · rw [hover, if_pos hany]
      · simp [pyGetD, hsc2]
      · simp [pyGetD, hst2]
      · intro h0
        rw [hfind2] at hany
        rw [(mismatchCount_eq_zero_iff _).mp h0] at hany
        exact absurd hany (by simp)
      · intro _
        exact hfind2
      · have hsc2b : pyGetD r2 ("data_integrity_score") (Json.num 0) =
            Json.num (min n 15) := by simp [pyGetD, hsc2]
        have hmin : min (min n 15) 15 = min n 15 := min_eq_left (min_le_right n 15)
        simp only [applyMismatchOverride, hsc2b, hmin]
        rw [dictSet_self_of_lookup _ _ _ hsc2]
        rw [dictSet_self_of_lookup _ _ _ hst2]
        simp only [findingsOf] at hany
        simp [hany]
    · -- no existing mismatch finding: prepend the synthetic one
      have hanyf : (findingsOf r2).any describesMismatch = false := by
        simpa using hany
      set out : Dict := dictSet r2 ("findings")
          (Json.arr (Json.obj (mismatchFinding best expected) ::
            (findingsOf r2).map Json.obj)) with hout
      have hscout : dictLookup out ("data_integrity_score") =
          some (Json.num (min n 15)) := by
        rw [hout, dictLookup_dictSet_ne _ _ _ _ hk4]
        exact hsc2
      have hstout : dictLookup out ("overall_status") = some (Json.str ("FAIL")) := by
        rw [hout, dictLookup_dictSet_ne _ _ _ _ hk5]
        exact hst2
      have hfindout : findingsOf out =
          mismatchFinding best expected :: findingsOf r2 := by
        unfold findingsOf
        rw [hout, pyGetD_dictSet_self]
        have : Json.obj (mismatchFinding best expected) ::
            (findingsOf r2).map Json.obj =
            (mismatchFinding best expected :: findingsOf r2).map Json.obj := by
          simp
        rw [this, asDictList_arr_map_obj]
        rfl
      refine ⟨out, ?_, ?_, min_le_right n 15, ?_, ?_, ?_, ?_⟩
      · rw [hover, if_neg (by simp [hanyf])]
      · simp [pyGetD, hscout]
      · simp [pyGetD, hstout]
      · intro _
        rw [hfindout]
        have hz : mismatchCount (findingsOf r2) = 0 :=
          (mismatchCount_eq_zero_iff _).mpr hanyf
        simp only [mismatchCount, List.filter_cons,
          describesMismatch_mismatchFinding, if_true, List.length_cons] at hz ⊢
        omega
      · intro hne
        rw [hfind2] at hanyf
        exact absurd ((mismatchCount_eq_zero_iff _).mpr hanyf) hne
      · have hscoutb : pyGetD out ("data_integrity_score") (Json.num 0) =
            Json.num (min n 15) := by simp [pyGetD, hscout]
        have hmin : min (min n 15) 15 = min n 15 := min_eq_left (min_le_right n 15)
        simp only [applyMismatchOverride, hscoutb, hmin]
        rw [dictSet_self_of_lookup _ _ _ hscout]
        rw [dictSet_self_of_lookup _ _ _ hstout]
        have : (findingsOf out).any describesMismatch = true := by
          rw [hfindout]
          simp [describesMismatch_mismatchFinding]
        simp only [findingsOf] at this
        simp [this]
  · intro analysis sop rc res hm hp
    simp [proceedAudit, hm, hp]

/-- The post-gate part of the pipeline can only produce `none` (an
exception) or a `record` outcome, never the low-quality halt. -/
theorem proceedAudit_ne_halt (analysis sopText : String)
    (rc : String → String → String) (q : Nat) :
    proceedAudit analysis sopText rc ≠ some (PipelineOutcome.lowQualityHalt q) := by
  simp only [proceedAudit]
  cases hp : parse_audit_response (rc analysis sopText) with
  | none => simp
  | some result =>
    by_cases hm : isMismatch analysis sopText = true
    · simp only [hm, if_true]
      cases ho : applyMismatchOverride (bestDetectedType analysis)
          ((expectedType sopText).getD ("None")) result <;> simp [ho]
    · simp [hm]

/-- C8: if a declared image quality is extracted from the vision output and
is at most 3, the pipeline halts with the low-quality verdict and its
outcome does not depend on the reasoning oracle at all (the reasoning call
is never issued); if no IMAGE_QUALITY marker yields a value, quality is
unknown rather than zero, the gate does not fire and the audit proceeds. -/
theorem C8_quality_gate (analysis sopText : String)
    (rc rc2 : String → String → String) :
    (∀ q, extractImageQuality analysis = some q → q ≤ 3 →
       runAuditPipeline analysis sopText rc = some (PipelineOutcome.lowQualityHalt q) ∧
       runAuditPipeline analysis sopText rc = runAuditPipeline analysis sopText rc2) ∧
    (extractImageQuality analysis = none →
       runAuditPipeline analysis sopText rc = proceedAudit analysis sopText rc ∧
       ∀ q, runAuditPipeline analysis sopText rc ≠
         some (PipelineOutcome.lowQualityHalt q)) := by
  constructor
  · intro q hq hle
    constructor <;> simp [runAuditPipeline, hq, hle]
  · intro hn
    have h1 : runAuditPipeline analysis sopText rc = proceedAudit analysis sopText rc := by
      simp [runAuditPipeline, hn]
    refine ⟨h1, fun q => ?_⟩
    rw [h1]
    exact proceedAudit_ne_halt analysis sopText rc q

theorem C8_witness :
    runAuditPipeline visLowQuality sopMttText rcConstHello =
      some (PipelineOutcome.lowQualityHalt 2) ∧
    runAuditPipeline visNoQualityMarker sopMttText rcConstHello ≠
      some (PipelineOutcome.lowQualityHalt 2) :=
  ⟨((C8_quality_gate visLowQuality sopMttText rcConstHello rcConstHello).1 2
      (by decide) (by decide)).1,
   ((C8_quality_gate visNoQualityMarker sopMttText rcConstHello rcConstHello).2
      (by decide)).2 2⟩

/-- C5: a failing input for the never-raises invariant.  The vision output
declares HPLC against an MTT SOP (mismatch), image quality 8 passes the
gate, and the reasoning output is unparseable, so `parse_audit_response`
yields the PARSE_ERROR record whose score is `None`; the mismatch override
then evaluates `min(None, 15)`, which raises `TypeError` — the pipeline
returns no record at all (`none`). -/
theorem C5_pipeline_raises_on_mismatched_parse_error :
    isMismatch visHplcChart sopMttText = true ∧
    extractImageQuality visHplcChart = some 8 ∧
    finalStatusOf (parse_audit_response ("hello")) = Json.str ("PARSE_ERROR") ∧
    finalScoreOf (parse_audit_response ("hello")) = Json.null ∧
    runAuditPipeline visHplcChart sopMttText rcConstHello = none := by
  decide

theorem C6_witness :
    pyGetD resultPass90 ("data_integrity_score") (Json.num 0) = Json.num 90 ∧
    (∃ out, applyMismatchOverride ("HPLC_CHROMATOGRAPHY") ("MTT_CELL_VIABILITY")
        resultPass90 = some out ∧
      pyGetD out ("data_integrity_score") Json.null = Json.num (min 90 15) ∧
      min (90 : Int) 15 ≤ 15 ∧
      pyGetD out ("overall_status") Json.null = Json.str ("FAIL") ∧
      (mismatchCount (findingsOf resultPass90) = 0 → mismatchCount (findingsOf out) = 1) ∧
      (mismatchCount (findingsOf resultPass90) ≠ 0 → findingsOf out = findingsOf resultPass90) ∧
      applyMismatchOverride ("HPLC_CHROMATOGRAPHY") ("MTT_CELL_VIABILITY") out = some out) :=
  ⟨by decide,
   (C6_mismatch_override ("HPLC_CHROMATOGRAPHY") ("MTT_CELL_VIABILITY") resultPass90 90
     (by decide)).1⟩

end LabSentinel
